import Mathlib

/-!
Shallow embedding of the `should_invest` scoring function of `src/app.py`
(the Investment Scorer core).  Python floats are modelled by rationals ℚ:
every constant of the source is an exact decimal, so each comparison and
each arithmetic step of the source is reproduced exactly.  Missing metric
inputs (`None` in Python) are modelled by `Option ℚ`.
-/

set_option maxRecDepth 4000

/-- A table assigning one rational to each of the nine metrics.  It models
the Python dicts `default_values` and `weights`, which are keyed by exactly
these nine metric names. -/
structure MetricTable where
  current_ratio : ℚ
  debt_to_equity : ℚ
  roe : ℚ
  pe_ratio : ℚ
  eps_growth : ℚ
  free_cash_flow : ℚ
  net_profit_margin : ℚ
  dividend_yield : ℚ
  beta : ℚ
deriving DecidableEq

/-- The argument bundle of `should_invest`: nine optional metric values, an
optional industry tag and an investor-preference tag (Python default
`"balanced"`). -/
structure ScoringInput where
  current_ratio : Option ℚ
  debt_to_equity : Option ℚ
  roe : Option ℚ
  pe_ratio : Option ℚ
  eps_growth : Option ℚ
  free_cash_flow : Option ℚ
  net_profit_margin : Option ℚ
  dividend_yield : Option ℚ
  beta : Option ℚ
  industry : Option String
  investor_preference : String
deriving DecidableEq

/-- `default_values` of `should_invest` (app.py lines 29-39): fallbacks used
when a metric input is absent. -/
def default_values : MetricTable where
  current_ratio := 1.5
  debt_to_equity := 1.0
  roe := 12
  pe_ratio := 20
  eps_growth := 5
  free_cash_flow := 0
  net_profit_margin := 8
  dividend_yield := 2
  beta := 1.0

/-- The base `weights` dict of `should_invest` (app.py lines 52-62), the
weights of a "balanced" investor before any adjustment. -/
def weights : MetricTable where
  current_ratio := 1.0
  debt_to_equity := 1.5
  roe := 1.5
  pe_ratio := 1.2
  eps_growth := 1.5
  free_cash_flow := 1.3
  net_profit_margin := 1.2
  dividend_yield := 1.2
  beta := 1.0

/-- The `industry_sensitivity` adjustment (app.py lines 45-49 and 64-67): if
the industry tag is one of the three known keys, the listed weights are
multiplied by the listed factors; any other tag (including `none`) leaves
the table unchanged. -/
def apply_industry (industry : Option String) (w : MetricTable) : MetricTable :=
  if industry = some "tech" then
    { w with pe_ratio := w.pe_ratio * 1.5, eps_growth := w.eps_growth * 2.0, roe := w.roe * 1.2 }
  else if industry = some "finance" then
    { w with debt_to_equity := w.debt_to_equity * 1.8, roe := w.roe * 1.5,
             dividend_yield := w.dividend_yield * 1.5 }
  else if industry = some "energy" then
    { w with free_cash_flow := w.free_cash_flow * 1.5, debt_to_equity := w.debt_to_equity * 1.5,
             dividend_yield := w.dividend_yield * 1.5 }
  else w

/-- The investor-preference adjustment (app.py lines 70-75): `weights.update`
replaces (does not multiply) the listed weights; any other tag leaves the
table unchanged. -/
def apply_preference (investor_preference : String) (w : MetricTable) : MetricTable :=
  if investor_preference = "growth" then
    { w with eps_growth := 2.0, pe_ratio := 1.7 }
  else if investor_preference = "value" then
    { w with dividend_yield := 2.0, pe_ratio := 0.8 }
  else if investor_preference = "dividend" then
    { w with dividend_yield := 2.5, free_cash_flow := 1.7 }
  else w

/-- `get_metric_value` (app.py lines 77-78): the input value if present,
else the given default. -/
def get_metric_value (metric : Option ℚ) (default_value : ℚ) : ℚ :=
  match metric with
  | some v => v
  | none => default_value

/-- The effective weight table used by `should_invest` for a given base
table: industry adjustment first (lines 64-67), then preference adjustment
(lines 69-75). -/
def effective_weights_from (base : MetricTable) (inp : ScoringInput) : MetricTable :=
  apply_preference inp.investor_preference (apply_industry inp.industry base)

/-- The effective weight table of `should_invest` with the source's base
`weights`. -/
def effective_weights (inp : ScoringInput) : MetricTable :=
  effective_weights_from weights inp

/-- The nine effective metric values of one call (app.py lines 81, 88, 95,
102, 109, 116, 121, 128, 133): input value if present, else that metric's
entry of `default_values`. -/
def effective_values (inp : ScoringInput) : MetricTable where
  current_ratio := get_metric_value inp.current_ratio default_values.current_ratio
  debt_to_equity := get_metric_value inp.debt_to_equity default_values.debt_to_equity
  roe := get_metric_value inp.roe default_values.roe
  pe_ratio := get_metric_value inp.pe_ratio default_values.pe_ratio
  eps_growth := get_metric_value inp.eps_growth default_values.eps_growth
  free_cash_flow := get_metric_value inp.free_cash_flow default_values.free_cash_flow
  net_profit_margin := get_metric_value inp.net_profit_margin default_values.net_profit_margin
  dividend_yield := get_metric_value inp.dividend_yield default_values.dividend_yield
  beta := get_metric_value inp.beta default_values.beta

/-- Credit factor of the `current_ratio` block (app.py lines 82-85):
`score += w * 1` when `value >= 1.5`, `score += w * 0.5` when `value >= 1`. -/
def current_ratio_credit (v : ℚ) : ℚ :=
  if v ≥ 1.5 then 1 else if v ≥ 1 then 0.5 else 0

/-- Credit factor of the `debt_to_equity` block (app.py lines 89-92). -/
def debt_to_equity_credit (v : ℚ) : ℚ :=
  if v < 1 then 1 else if v < 2 then 0.5 else 0

/-- Credit factor of the `roe` block (app.py lines 96-99). -/
def roe_credit (v : ℚ) : ℚ :=
  if v > 15 then 1 else if v > 10 then 0.5 else 0

/-- Credit factor of the `pe_ratio` block (app.py lines 103-106). -/
def pe_ratio_credit (v : ℚ) : ℚ :=
  if v < 15 then 1 else if v < 25 then 0.5 else 0

/-- Credit factor of the `eps_growth` block (app.py lines 110-113). -/
def eps_growth_credit (v : ℚ) : ℚ :=
  if v > 0 then 1 else if v > -10 then 0.5 else 0

/-- Credit factor of the `free_cash_flow` block (app.py lines 117-118):
binary, no half tier. -/
def free_cash_flow_credit (v : ℚ) : ℚ :=
  if v > 0 then 1 else 0

/-- Credit factor of the `net_profit_margin` block (app.py lines 122-125). -/
def net_profit_margin_credit (v : ℚ) : ℚ :=
  if v > 10 then 1 else if v > 5 then 0.5 else 0

/-- Credit factor of the `dividend_yield` block (app.py lines 129-130):
binary, no half tier. -/
def dividend_yield_credit (v : ℚ) : ℚ :=
  if v > 2 then 1 else 0

/-- Credit factor of the `beta` block (app.py lines 134-137). -/
def beta_credit (v : ℚ) : ℚ :=
  if v < 1 then 1 else if v < 1.5 then 0.5 else 0

/-- The final value of the `score` accumulator of `should_invest` (app.py
lines 41, 81-138): the sum, over the nine metric blocks in source order, of
`weights[metric] *` the block's credit factor at the effective value. -/
def score_of (w : MetricTable) (inp : ScoringInput) : ℚ :=
  w.current_ratio * current_ratio_credit (effective_values inp).current_ratio
  + w.debt_to_equity * debt_to_equity_credit (effective_values inp).debt_to_equity
  + w.roe * roe_credit (effective_values inp).roe
  + w.pe_ratio * pe_ratio_credit (effective_values inp).pe_ratio
  + w.eps_growth * eps_growth_credit (effective_values inp).eps_growth
  + w.free_cash_flow * free_cash_flow_credit (effective_values inp).free_cash_flow
  + w.net_profit_margin * net_profit_margin_credit (effective_values inp).net_profit_margin
  + w.dividend_yield * dividend_yield_credit (effective_values inp).dividend_yield
  + w.beta * beta_credit (effective_values inp).beta

/-- The final value of the `total_weight` accumulator of `should_invest`
(app.py lines 42, 86, 93, 100, 107, 114, 119, 126, 131, 138): each metric
block executes `total_weight += weights[metric]` unconditionally, so the
total is the sum of the nine weights and does not depend on the metric
values. -/
def total_weight_of (w : MetricTable) : ℚ :=
  w.current_ratio + w.debt_to_equity + w.roe + w.pe_ratio + w.eps_growth
  + w.free_cash_flow + w.net_profit_margin + w.dividend_yield + w.beta

/-- `should_invest` (app.py lines 15-153), with the base weight table as a
parameter so that the hypothetical all-zero table of the spec's zero-weight
guard scenario can be evaluated.  After the weight adjustments and the nine
metric blocks: return `Insufficient Data` when the total weight is zero,
otherwise classify `score / total_weight` by the fixed label thresholds
(lines 140-153). -/
def should_invest_from (base : MetricTable) (inp : ScoringInput) : String :=
  let w := effective_weights_from base inp
  let score := score_of w inp
  let total_weight := total_weight_of w
  if total_weight = 0 then "Insufficient Data"
  else
    let normalized_score := score / total_weight
    if normalized_score ≥ 0.75 then "Strong Buy: High confidence in investment potential."
    else if normalized_score ≥ 0.55 then "Buy: Good opportunity with solid metrics."
    else if normalized_score ≥ 0.35 then "Hold: Monitor the situation closely."
    else "Sell: Consider reallocating investments."

/-- `should_invest` with the source's base weight table. -/
def should_invest (inp : ScoringInput) : String :=
  should_invest_from weights inp

/-- The `normalized_score` of app.py line 143 (with the source's base
weight table). -/
def normalized_score_of (inp : ScoringInput) : ℚ :=
  score_of (effective_weights inp) inp / total_weight_of (effective_weights inp)

/-- Rank of the four ordered recommendation labels of app.py lines 146-153:
Sell < Hold < Buy < Strong Buy. -/
def label_rank (s : String) : ℕ :=
  if s = "Strong Buy: High confidence in investment potential." then 3
  else if s = "Buy: Good opportunity with solid metrics." then 2
  else if s = "Hold: Monitor the situation closely." then 1
  else 0

/-- The all-absent call: every metric `None`, no industry, Python-default
preference `"balanced"`. -/
def all_default_input : ScoringInput where
  current_ratio := none
  debt_to_equity := none
  roe := none
  pe_ratio := none
  eps_growth := none
  free_cash_flow := none
  net_profit_margin := none
  dividend_yield := none
  beta := none
  industry := none
  investor_preference := "balanced"

/-- The hypothetical all-zero weight table of the spec's zero-weight guard
scenario. -/
def zero_table : MetricTable where
  current_ratio := 0
  debt_to_equity := 0
  roe := 0
  pe_ratio := 0
  eps_growth := 0
  free_cash_flow := 0
  net_profit_margin := 0
  dividend_yield := 0
  beta := 0

/-- All metrics absent except `roe = 16`, no industry, balanced preference. -/
def roe16_input : ScoringInput :=
  { all_default_input with roe := some 16 }

/-- All metrics absent except `roe = 8`, no industry, balanced preference. -/
def roe8_input : ScoringInput :=
  { all_default_input with roe := some 8 }

/-- The spec's all-full-credit scenario: every metric strictly inside its
full-credit tier, no industry, balanced preference. -/
def full_input : ScoringInput where
  current_ratio := some 2.0
  debt_to_equity := some 0.5
  roe := some 20
  pe_ratio := some 12
  eps_growth := some 10
  free_cash_flow := some 1000000
  net_profit_margin := some 15
  dividend_yield := some 3
  beta := some 0.8
  industry := none
  investor_preference := "balanced"

/-- All metrics absent, industry `tech`, preference `growth`. -/
def growth_tech_input : ScoringInput :=
  { all_default_input with industry := some "tech", investor_preference := "growth" }

/-- All metrics absent, industry `finance`, balanced preference. -/
def finance_input : ScoringInput :=
  { all_default_input with industry := some "finance" }

/-- All metrics absent, with an industry tag and a preference tag that the
source does not recognize. -/
def unrecognized_input : ScoringInput :=
  { all_default_input with industry := some "retail", investor_preference := "aggressive" }

/-! ### Helper lemmas shared by the claim theorems -/

theorem apply_industry_none (w : MetricTable) : apply_industry none w = w := by
  simp [apply_industry]

theorem apply_industry_other (industry : Option String) (w : MetricTable)
    (h1 : industry ≠ some "tech") (h2 : industry ≠ some "finance")
    (h3 : industry ≠ some "energy") : apply_industry industry w = w := by
  simp [apply_industry, h1, h2, h3]

theorem apply_preference_balanced (w : MetricTable) : apply_preference "balanced" w = w := by
  simp [apply_preference]

theorem apply_preference_other (p : String) (w : MetricTable)
    (h1 : p ≠ "growth") (h2 : p ≠ "value") (h3 : p ≠ "dividend") :
    apply_preference p w = w := by
  simp [apply_preference, h1, h2, h3]

theorem ew_plain (inp : ScoringInput) (hi : inp.industry = none)
    (hp : inp.investor_preference = "balanced") : effective_weights inp = weights := by
  unfold effective_weights effective_weights_from
  rw [hi, hp, apply_industry_none, apply_preference_balanced]

theorem should_invest_from_eq (base : MetricTable) (inp : ScoringInput) :
    should_invest_from base inp =
      if total_weight_of (effective_weights_from base inp) = 0 then "Insufficient Data"
      else if score_of (effective_weights_from base inp) inp
          / total_weight_of (effective_weights_from base inp) ≥ 0.75 then
        "Strong Buy: High confidence in investment potential."
      else if score_of (effective_weights_from base inp) inp
          / total_weight_of (effective_weights_from base inp) ≥ 0.55 then
        "Buy: Good opportunity with solid metrics."
      else if score_of (effective_weights_from base inp) inp
          / total_weight_of (effective_weights_from base inp) ≥ 0.35 then
        "Hold: Monitor the situation closely."
      else "Sell: Consider reallocating investments." := rfl

theorem should_invest_eq (inp : ScoringInput) :
    should_invest inp =
      if total_weight_of (effective_weights inp) = 0 then "Insufficient Data"
      else if normalized_score_of inp ≥ 0.75 then
        "Strong Buy: High confidence in investment potential."
      else if normalized_score_of inp ≥ 0.55 then
        "Buy: Good opportunity with solid metrics."
      else if normalized_score_of inp ≥ 0.35 then
        "Hold: Monitor the situation closely."
      else "Sell: Consider reallocating investments." := rfl

theorem si_cases (inp : ScoringInput) (h : total_weight_of (effective_weights inp) ≠ 0) :
    should_invest inp =
      if normalized_score_of inp ≥ 0.75 then
        "Strong Buy: High confidence in investment potential."
      else if normalized_score_of inp ≥ 0.55 then
        "Buy: Good opportunity with solid metrics."
      else if normalized_score_of inp ≥ 0.35 then
        "Hold: Monitor the situation closely."
      else "Sell: Consider reallocating investments." := by
  rw [should_invest_eq inp, if_neg h]

theorem current_ratio_credit_bounds (v : ℚ) :
    0 ≤ current_ratio_credit v ∧ current_ratio_credit v ≤ 1 := by
  unfold current_ratio_credit; split_ifs <;> norm_num

theorem debt_to_equity_credit_bounds (v : ℚ) :
    0 ≤ debt_to_equity_credit v ∧ debt_to_equity_credit v ≤ 1 := by
  unfold debt_to_equity_credit; split_ifs <;> norm_num

theorem roe_credit_bounds (v : ℚ) : 0 ≤ roe_credit v ∧ roe_credit v ≤ 1 := by
  unfold roe_credit; split_ifs <;> norm_num

theorem pe_ratio_credit_bounds (v : ℚ) : 0 ≤ pe_ratio_credit v ∧ pe_ratio_credit v ≤ 1 := by
  unfold pe_ratio_credit; split_ifs <;> norm_num

theorem eps_growth_credit_bounds (v : ℚ) :
    0 ≤ eps_growth_credit v ∧ eps_growth_credit v ≤ 1 := by
  unfold eps_growth_credit; split_ifs <;> norm_num

theorem free_cash_flow_credit_bounds (v : ℚ) :
    0 ≤ free_cash_flow_credit v ∧ free_cash_flow_credit v ≤ 1 := by
  unfold free_cash_flow_credit; split_ifs <;> norm_num

theorem net_profit_margin_credit_bounds (v : ℚ) :
    0 ≤ net_profit_margin_credit v ∧ net_profit_margin_credit v ≤ 1 := by
  unfold net_profit_margin_credit; split_ifs <;> norm_num

theorem dividend_yield_credit_bounds (v : ℚ) :
    0 ≤ dividend_yield_credit v ∧ dividend_yield_credit v ≤ 1 := by
  unfold dividend_yield_credit; split_ifs <;> norm_num

theorem beta_credit_bounds (v : ℚ) : 0 ≤ beta_credit v ∧ beta_credit v ≤ 1 := by
  unfold beta_credit; split_ifs <;> norm_num

theorem effective_weights_pos (inp : ScoringInput) :
    0 < (effective_weights inp).current_ratio ∧ 0 < (effective_weights inp).debt_to_equity ∧
    0 < (effective_weights inp).roe ∧ 0 < (effective_weights inp).pe_ratio ∧
    0 < (effective_weights inp).eps_growth ∧ 0 < (effective_weights inp).free_cash_flow ∧
    0 < (effective_weights inp).net_profit_margin ∧ 0 < (effective_weights inp).dividend_yield ∧
    0 < (effective_weights inp).beta := by
  unfold effective_weights effective_weights_from apply_preference apply_industry
  split_ifs <;> norm_num [weights]

theorem total_weight_pos (inp : ScoringInput) : 0 < total_weight_of (effective_weights inp) := by
  obtain ⟨p1, p2, p3, p4, p5, p6, p7, p8, p9⟩ := effective_weights_pos inp
  unfold total_weight_of
  linarith

theorem score_all_default : score_of weights all_default_input = 5.7 := by
  norm_num [score_of, effective_values, get_metric_value, default_values, weights,
    all_default_input, current_ratio_credit, debt_to_equity_credit, roe_credit, pe_ratio_credit,
    eps_growth_credit, free_cash_flow_credit, net_profit_margin_credit, dividend_yield_credit,
    beta_credit]

theorem tw_weights : total_weight_of weights = 11.4 := by
  norm_num [total_weight_of, weights]

theorem ns_all_default : normalized_score_of all_default_input = 0.5 := by
  unfold normalized_score_of
  rw [ew_plain all_default_input rfl rfl, score_all_default, tw_weights]
  norm_num

/-! ### Claim theorems -/

/-- C3: with all nine metrics absent, no industry and balanced preference,
the scorer uses the listed defaults, earns exactly full credit on
current_ratio and eps_growth, half credit on debt_to_equity, roe, pe_ratio,
net_profit_margin and beta, zero on free_cash_flow and dividend_yield, for
a score of 5.7 over a total weight of 11.4, a normalized score of 0.5, and
the label Hold. -/
theorem C3_all_defaults_scenario :
    current_ratio_credit (effective_values all_default_input).current_ratio = 1 ∧
    debt_to_equity_credit (effective_values all_default_input).debt_to_equity = 0.5 ∧
    roe_credit (effective_values all_default_input).roe = 0.5 ∧
    pe_ratio_credit (effective_values all_default_input).pe_ratio = 0.5 ∧
    eps_growth_credit (effective_values all_default_input).eps_growth = 1 ∧
    free_cash_flow_credit (effective_values all_default_input).free_cash_flow = 0 ∧
    net_profit_margin_credit (effective_values all_default_input).net_profit_margin = 0.5 ∧
    dividend_yield_credit (effective_values all_default_input).dividend_yield = 0 ∧
    beta_credit (effective_values all_default_input).beta = 0.5 ∧
    score_of (effective_weights all_default_input) all_default_input = 5.7 ∧
    total_weight_of (effective_weights all_default_input) = 11.4 ∧
    normalized_score_of all_default_input = 0.5 ∧
    should_invest all_default_input = "Hold: Monitor the situation closely." := by
  refine ⟨?_, ?_, ?_, ?_, ?_, ?_, ?_, ?_, ?_, ?_, ?_, ns_all_default, ?_⟩
  · norm_num [effective_values, get_metric_value, default_values, all_default_input,
      current_ratio_credit]
  · norm_num [effective_values, get_metric_value, default_values, all_default_input,
      debt_to_equity_credit]
  · norm_num [effective_values, get_metric_value, default_values, all_default_input, roe_credit]
  · norm_num [effective_values, get_metric_value, default_values, all_default_input,
      pe_ratio_credit]
  · norm_num [effective_values, get_metric_value, default_values, all_default_input,
      eps_growth_credit]
  · norm_num [effective_values, get_metric_value, default_values, all_default_input,
      free_cash_flow_credit]
  · norm_num [effective_values, get_metric_value, default_values, all_default_input,
      net_profit_margin_credit]
  · norm_num [effective_values, get_metric_value, default_values, all_default_input,
      dividend_yield_credit]
  · norm_num [effective_values, get_metric_value, default_values, all_default_input, beta_credit]
  · rw [ew_plain all_default_input rfl rfl]; exact score_all_default
  · rw [ew_plain all_default_input rfl rfl]; exact tw_weights
  · rw [si_cases all_default_input (by rw [ew_plain all_default_input rfl rfl, tw_weights]; norm_num)]
    rw [ns_all_default]
    norm_num

/-- C4 counterexample: the claim says the substituted default is never
zero, but the source default for free_cash_flow is 0, and on the all-absent
input the substituted free_cash_flow value is exactly 0. -/
theorem C4_counterexample :
    default_values.free_cash_flow = 0 ∧
    (effective_values all_default_input).free_cash_flow = 0 :=
  ⟨rfl, rfl⟩

/-- C4 (amended): an absent metric field is always replaced by that
metric's fixed default from `default_values`, without any error, and every
default is nonzero except free_cash_flow, whose default is 0. -/
theorem C4_default_substitution (inp : ScoringInput) :
    (inp.current_ratio = none →
      (effective_values inp).current_ratio = default_values.current_ratio) ∧
    (inp.debt_to_equity = none →
      (effective_values inp).debt_to_equity = default_values.debt_to_equity) ∧
    (inp.roe = none → (effective_values inp).roe = default_values.roe) ∧
    (inp.pe_ratio = none → (effective_values inp).pe_ratio = default_values.pe_ratio) ∧
    (inp.eps_growth = none → (effective_values inp).eps_growth = default_values.eps_growth) ∧
    (inp.free_cash_flow = none →
      (effective_values inp).free_cash_flow = default_values.free_cash_flow) ∧
    (inp.net_profit_margin = none →
      (effective_values inp).net_profit_margin = default_values.net_profit_margin) ∧
    (inp.dividend_yield = none →
      (effective_values inp).dividend_yield = default_values.dividend_yield) ∧
    (inp.beta = none → (effective_values inp).beta = default_values.beta) ∧
    (default_values.current_ratio ≠ 0 ∧ default_values.debt_to_equity ≠ 0 ∧
      default_values.roe ≠ 0 ∧ default_values.pe_ratio ≠ 0 ∧ default_values.eps_growth ≠ 0 ∧
      default_values.net_profit_margin ≠ 0 ∧ default_values.dividend_yield ≠ 0 ∧
      default_values.beta ≠ 0) ∧
    default_values.free_cash_flow = 0 := by
  refine ⟨?_, ?_, ?_, ?_, ?_, ?_, ?_, ?_, ?_, ?_, rfl⟩
  · intro h; simp [effective_values, get_metric_value, h]
  · intro h; simp [effective_values, get_metric_value, h]
  · intro h; simp [effective_values, get_metric_value, h]
  · intro h; simp [effective_values, get_metric_value, h]
  · intro h; simp [effective_values, get_metric_value, h]
  · intro h; simp [effective_values, get_metric_value, h]
  · intro h; simp [effective_values, get_metric_value, h]
  · intro h; simp [effective_values, get_metric_value, h]
  · intro h; simp [effective_values, get_metric_value, h]
  · norm_num [default_values]

/-- C4 witness: the amended substitution theorem applied to the all-absent
input for the current_ratio field. -/
theorem C4_default_substitution_witness :
    (effective_values all_default_input).current_ratio = default_values.current_ratio :=
  (C4_default_substitution all_default_input).1 rfl

/-- C5: with preference "growth" the effective eps_growth weight is exactly
2.0 and the effective pe_ratio weight exactly 1.7, whatever the industry
tag, because the preference step overrides rather than multiplies; with
preference "balanced" the industry-adjusted table is left untouched. -/
theorem C5_growth_override (inp : ScoringInput) :
    (inp.investor_preference = "growth" →
      (effective_weights inp).eps_growth = 2.0 ∧ (effective_weights inp).pe_ratio = 1.7) ∧
    (inp.investor_preference = "balanced" →
      effective_weights inp = apply_industry inp.industry weights) := by
  constructor
  · intro h
    unfold effective_weights effective_weights_from
    rw [h]
    unfold apply_preference
    norm_num
  · intro h
    unfold effective_weights effective_weights_from
    rw [h, apply_preference_balanced]

/-- C5 witness: growth preference combined with the tech industry tag
(whose multipliers touch both eps_growth and pe_ratio) still yields exactly
2.0 and 1.7. -/
theorem C5_growth_override_witness :
    (effective_weights growth_tech_input).eps_growth = 2.0 ∧
    (effective_weights growth_tech_input).pe_ratio = 1.7 :=
  (C5_growth_override growth_tech_input).1 rfl

/-- C6: with industry "finance" and balanced preference the effective
debt_to_equity weight is the base weight 1.5 times the finance multiplier
1.8, i.e. 2.7, and the accumulated total weight is 13.95, which contains
exactly that adjusted entry. -/
theorem C6_finance_weight (inp : ScoringInput) (hi : inp.industry = some "finance")
    (hp : inp.investor_preference = "balanced") :
    (effective_weights inp).debt_to_equity = weights.debt_to_equity * 1.8 ∧
    (effective_weights inp).debt_to_equity = 2.7 ∧
    total_weight_of (effective_weights inp) = 13.95 := by
  have hw : effective_weights inp = apply_industry (some "finance") weights := by
    unfold effective_weights effective_weights_from
    rw [hi, hp, apply_preference_balanced]
  rw [hw]
  unfold apply_industry
  rw [if_neg (by decide), if_pos rfl]
  norm_num [weights, total_weight_of]

/-- C6 witness: the finance-industry theorem evaluated on the concrete
finance-tagged input. -/
theorem C6_finance_weight_witness :
    (effective_weights finance_input).debt_to_equity = 2.7 ∧
    total_weight_of (effective_weights finance_input) = 13.95 :=
  ⟨(C6_finance_weight finance_input rfl rfl).2.1, (C6_finance_weight finance_input rfl rfl).2.2⟩

/-- C7: raising roe from 8 to 16 with everything else absent, no industry
and balanced preference does not lower the label rank under
Sell < Hold < Buy < Strong Buy (it moves the label from Hold to Buy). -/
theorem C7_roe_monotone_sample :
    label_rank (should_invest roe8_input) ≤ label_rank (should_invest roe16_input) := by
  have hs16 : score_of weights roe16_input = 6.45 := by
    norm_num [score_of, effective_values, get_metric_value, default_values, weights,
      roe16_input, all_default_input, current_ratio_credit, debt_to_equity_credit, roe_credit,
      pe_ratio_credit, eps_growth_credit, free_cash_flow_credit, net_profit_margin_credit,
      dividend_yield_credit, beta_credit]
  have hs8 : score_of weights roe8_input = 4.95 := by
    norm_num [score_of, effective_values, get_metric_value, default_values, weights,
      roe8_input, all_default_input, current_ratio_credit, debt_to_equity_credit, roe_credit,
      pe_ratio_credit, eps_growth_credit, free_cash_flow_credit, net_profit_margin_credit,
      dividend_yield_credit, beta_credit]
  have hn16 : normalized_score_of roe16_input = 6.45 / 11.4 := by
    unfold normalized_score_of
    rw [ew_plain roe16_input rfl rfl, hs16, tw_weights]
  have hn8 : normalized_score_of roe8_input = 4.95 / 11.4 := by
    unfold normalized_score_of
    rw [ew_plain roe8_input rfl rfl, hs8, tw_weights]
  have h16 : should_invest roe16_input = "Buy: Good opportunity with solid metrics." := by
    rw [si_cases roe16_input (by rw [ew_plain roe16_input rfl rfl, tw_weights]; norm_num), hn16]
    norm_num
  have h8 : should_invest roe8_input = "Hold: Monitor the situation closely." := by
    rw [si_cases roe8_input (by rw [ew_plain roe8_input rfl rfl, tw_weights]; norm_num), hn8]
    norm_num
  rw [h16, h8]
  decide

/-- C1: the scorer resolves each metric's effective value as the input
value if present else that metric's fixed default; each of the nine credit
factors follows its three-tier threshold rule exactly (full, half, zero
tiers as in the table, with the binary free_cash_flow and dividend_yield
having no half tier); the current_ratio boundary is exact (1.5 earns full
credit, 1.4999 earns half); and the total-weight accumulator receives every
metric's weight regardless of the metric values, so it depends only on the
industry and preference tags. -/
theorem C1_three_tier_scoring :
    (∀ x d : ℚ, get_metric_value (some x) d = x ∧ get_metric_value none d = d) ∧
    (∀ v : ℚ, (1.5 ≤ v → current_ratio_credit v = 1) ∧
      (1 ≤ v → v < 1.5 → current_ratio_credit v = 0.5) ∧ (v < 1 → current_ratio_credit v = 0)) ∧
    (∀ v : ℚ, (v < 1 → debt_to_equity_credit v = 1) ∧
      (1 ≤ v → v < 2 → debt_to_equity_credit v = 0.5) ∧ (2 ≤ v → debt_to_equity_credit v = 0)) ∧
    (∀ v : ℚ, (15 < v → roe_credit v = 1) ∧
      (10 < v → v ≤ 15 → roe_credit v = 0.5) ∧ (v ≤ 10 → roe_credit v = 0)) ∧
    (∀ v : ℚ, (v < 15 → pe_ratio_credit v = 1) ∧
      (15 ≤ v → v < 25 → pe_ratio_credit v = 0.5) ∧ (25 ≤ v → pe_ratio_credit v = 0)) ∧
    (∀ v : ℚ, (0 < v → eps_growth_credit v = 1) ∧
      (-10 < v → v ≤ 0 → eps_growth_credit v = 0.5) ∧ (v ≤ -10 → eps_growth_credit v = 0)) ∧
    (∀ v : ℚ, (0 < v → free_cash_flow_credit v = 1) ∧ (v ≤ 0 → free_cash_flow_credit v = 0)) ∧
    (∀ v : ℚ, (10 < v → net_profit_margin_credit v = 1) ∧
      (5 < v → v ≤ 10 → net_profit_margin_credit v = 0.5) ∧
      (v ≤ 5 → net_profit_margin_credit v = 0)) ∧
    (∀ v : ℚ, (2 < v → dividend_yield_credit v = 1) ∧ (v ≤ 2 → dividend_yield_credit v = 0)) ∧
    (∀ v : ℚ, (v < 1 → beta_credit v = 1) ∧
      (1 ≤ v → v < 1.5 → beta_credit v = 0.5) ∧ (1.5 ≤ v → beta_credit v = 0)) ∧
    current_ratio_credit 1.5 = 1 ∧ current_ratio_credit 1.4999 = 0.5 ∧
    (∀ inp1 inp2 : ScoringInput, inp1.industry = inp2.industry →
      inp1.investor_preference = inp2.investor_preference →
      total_weight_of (effective_weights inp1) = total_weight_of (effective_weights inp2)) := by
  refine ⟨fun x d => ⟨rfl, rfl⟩, ?_, ?_, ?_, ?_, ?_, ?_, ?_, ?_, ?_, ?_, ?_, ?_⟩
  · intro v
    unfold current_ratio_credit
    refine ⟨fun h => ?_, fun h h2 => ?_, fun h => ?_⟩ <;> split_ifs <;> first | rfl | linarith
  · intro v
    unfold debt_to_equity_credit
    refine ⟨fun h => ?_, fun h h2 => ?_, fun h => ?_⟩ <;> split_ifs <;> first | rfl | linarith
  · intro v
    unfold roe_credit
    refine ⟨fun h => ?_, fun h h2 => ?_, fun h => ?_⟩ <;> split_ifs <;> first | rfl | linarith
  · intro v
    unfold pe_ratio_credit
    refine ⟨fun h => ?_, fun h h2 => ?_, fun h => ?_⟩ <;> split_ifs <;> first | rfl | linarith
  · intro v
    unfold eps_growth_credit
    refine ⟨fun h => ?_, fun h h2 => ?_, fun h => ?_⟩ <;> split_ifs <;> first | rfl | linarith
  · intro v
    unfold free_cash_flow_credit
    refine ⟨fun h => ?_, fun h => ?_⟩ <;> split_ifs <;> first | rfl | linarith
  · intro v
    unfold net_profit_margin_credit
    refine ⟨fun h => ?_, fun h h2 => ?_, fun h => ?_⟩ <;> split_ifs <;> first | rfl | linarith
  · intro v
    unfold dividend_yield_credit
    refine ⟨fun h => ?_, fun h => ?_⟩ <;> split_ifs <;> first | rfl | linarith
  · intro v
    unfold beta_credit
    refine ⟨fun h => ?_, fun h h2 => ?_, fun h => ?_⟩ <;> split_ifs <;> first | rfl | linarith
  · norm_num [current_ratio_credit]
  · norm_num [current_ratio_credit]
  · intro inp1 inp2 h1 h2
    unfold effective_weights effective_weights_from
    rw [h1, h2]

/-- C1 witness: the tier rules of the theorem evaluated at concrete
points: current_ratio 2 is in the full tier and debt_to_equity 1 in the
half tier. -/
theorem C1_three_tier_scoring_witness :
    current_ratio_credit 2 = 1 ∧ debt_to_equity_credit 1 = 0.5 :=
  ⟨(C1_three_tier_scoring.2.1 2).1 (by norm_num),
    (C1_three_tier_scoring.2.2.1 1).2.1 (by norm_num) (by norm_num)⟩

/-- C2: whenever the accumulated total weight is nonzero, the returned
label is decided by the fixed thresholds on the normalized score
(≥ 0.75 Strong Buy, ≥ 0.55 Buy, ≥ 0.35 Hold, otherwise Sell), and the
result is always one of the four labels with their fixed rationale
suffixes. -/
theorem C2_label_thresholds (inp : ScoringInput)
    (h : total_weight_of (effective_weights inp) ≠ 0) :
    (normalized_score_of inp ≥ 0.75 →
      should_invest inp = "Strong Buy: High confidence in investment potential.") ∧
    (normalized_score_of inp ≥ 0.55 → ¬ normalized_score_of inp ≥ 0.75 →
      should_invest inp = "Buy: Good opportunity with solid metrics.") ∧
    (normalized_score_of inp ≥ 0.35 → ¬ normalized_score_of inp ≥ 0.55 →
      should_invest inp = "Hold: Monitor the situation closely.") ∧
    (¬ normalized_score_of inp ≥ 0.35 →
      should_invest inp = "Sell: Consider reallocating investments.") ∧
    (should_invest inp = "Strong Buy: High confidence in investment potential."
      ∨ should_invest inp = "Buy: Good opportunity with solid metrics."
      ∨ should_invest inp = "Hold: Monitor the situation closely."
      ∨ should_invest inp = "Sell: Consider reallocating investments.") := by
  rw [si_cases inp h]
  refine ⟨?_, ?_, ?_, ?_, ?_⟩
  · intro h1
    split_ifs <;> first | rfl | (exfalso; linarith)
  · intro h1 h2
    split_ifs <;> first | rfl | (exfalso; linarith)
  · intro h1 h2
    split_ifs <;> first | rfl | (exfalso; linarith)
  · intro h1
    split_ifs <;> first | rfl | (exfalso; linarith)
  · split_ifs <;> simp

/-- C2 witness: the all-absent input has total weight 11.4 and normalized
score 0.5, so the ≥ 0.35 tier applies and the theorem yields Hold. -/
theorem C2_label_thresholds_witness :
    should_invest all_default_input = "Hold: Monitor the situation closely." :=
  (C2_label_thresholds all_default_input
      (by rw [ew_plain all_default_input rfl rfl, tw_weights]; norm_num)).2.2.1
    (by rw [ns_all_default]; norm_num) (by rw [ns_all_default]; norm_num)

theorem weighted_ratio_bounds (w1 w2 w3 w4 w5 w6 w7 w8 w9 c1 c2 c3 c4 c5 c6 c7 c8 c9 : ℚ)
    (hw1 : 0 < w1) (hw2 : 0 < w2) (hw3 : 0 < w3) (hw4 : 0 < w4) (hw5 : 0 < w5) (hw6 : 0 < w6)
    (hw7 : 0 < w7) (hw8 : 0 < w8) (hw9 : 0 < w9)
    (hc1 : 0 ≤ c1 ∧ c1 ≤ 1) (hc2 : 0 ≤ c2 ∧ c2 ≤ 1) (hc3 : 0 ≤ c3 ∧ c3 ≤ 1)
    (hc4 : 0 ≤ c4 ∧ c4 ≤ 1) (hc5 : 0 ≤ c5 ∧ c5 ≤ 1) (hc6 : 0 ≤ c6 ∧ c6 ≤ 1)
    (hc7 : 0 ≤ c7 ∧ c7 ≤ 1) (hc8 : 0 ≤ c8 ∧ c8 ≤ 1) (hc9 : 0 ≤ c9 ∧ c9 ≤ 1) :
    0 ≤ (w1 * c1 + w2 * c2 + w3 * c3 + w4 * c4 + w5 * c5 + w6 * c6 + w7 * c7 + w8 * c8 + w9 * c9)
        / (w1 + w2 + w3 + w4 + w5 + w6 + w7 + w8 + w9) ∧
    (w1 * c1 + w2 * c2 + w3 * c3 + w4 * c4 + w5 * c5 + w6 * c6 + w7 * c7 + w8 * c8 + w9 * c9)
        / (w1 + w2 + w3 + w4 + w5 + w6 + w7 + w8 + w9) ≤ 1 ∧
    ((w1 * c1 + w2 * c2 + w3 * c3 + w4 * c4 + w5 * c5 + w6 * c6 + w7 * c7 + w8 * c8 + w9 * c9)
        / (w1 + w2 + w3 + w4 + w5 + w6 + w7 + w8 + w9) = 1 ↔
      (c1 = 1 ∧ c2 = 1 ∧ c3 = 1 ∧ c4 = 1 ∧ c5 = 1 ∧ c6 = 1 ∧ c7 = 1 ∧ c8 = 1 ∧ c9 = 1)) := by
  have hT : 0 < w1 + w2 + w3 + w4 + w5 + w6 + w7 + w8 + w9 := by linarith
  have t1 : w1 * c1 ≤ w1 := mul_le_of_le_one_right hw1.le hc1.2
  have t2 : w2 * c2 ≤ w2 := mul_le_of_le_one_right hw2.le hc2.2
  have t3 : w3 * c3 ≤ w3 := mul_le_of_le_one_right hw3.le hc3.2
  have t4 : w4 * c4 ≤ w4 := mul_le_of_le_one_right hw4.le hc4.2
  have t5 : w5 * c5 ≤ w5 := mul_le_of_le_one_right hw5.le hc5.2
  have t6 : w6 * c6 ≤ w6 := mul_le_of_le_one_right hw6.le hc6.2
  have t7 : w7 * c7 ≤ w7 := mul_le_of_le_one_right hw7.le hc7.2
  have t8 : w8 * c8 ≤ w8 := mul_le_of_le_one_right hw8.le hc8.2
  have t9 : w9 * c9 ≤ w9 := mul_le_of_le_one_right hw9.le hc9.2
  have s1 : 0 ≤ w1 * c1 := mul_nonneg hw1.le hc1.1
  have s2 : 0 ≤ w2 * c2 := mul_nonneg hw2.le hc2.1
  have s3 : 0 ≤ w3 * c3 := mul_nonneg hw3.le hc3.1
  have s4 : 0 ≤ w4 * c4 := mul_nonneg hw4.le hc4.1
  have s5 : 0 ≤ w5 * c5 := mul_nonneg hw5.le hc5.1
  have s6 : 0 ≤ w6 * c6 := mul_nonneg hw6.le hc6.1
  have s7 : 0 ≤ w7 * c7 := mul_nonneg hw7.le hc7.1
  have s8 : 0 ≤ w8 * c8 := mul_nonneg hw8.le hc8.1
  have s9 : 0 ≤ w9 * c9 := mul_nonneg hw9.le hc9.1
  refine ⟨div_nonneg (by linarith) hT.le, div_le_one_of_le₀ (by linarith) hT.le, ?_⟩
  rw [div_eq_one_iff_eq hT.ne']
  constructor
  · intro hEq
    have e1 : w1 * c1 = w1 := by linarith
    have e2 : w2 * c2 = w2 := by linarith
    have e3 : w3 * c3 = w3 := by linarith
    have e4 : w4 * c4 = w4 := by linarith
    have e5 : w5 * c5 = w5 := by linarith
    have e6 : w6 * c6 = w6 := by linarith
    have e7 : w7 * c7 = w7 := by linarith
    have e8 : w8 * c8 = w8 := by linarith
    have e9 : w9 * c9 = w9 := by linarith
    exact ⟨mul_left_cancel₀ hw1.ne' (by rw [mul_one]; exact e1),
      mul_left_cancel₀ hw2.ne' (by rw [mul_one]; exact e2),
      mul_left_cancel₀ hw3.ne' (by rw [mul_one]; exact e3),
      mul_left_cancel₀ hw4.ne' (by rw [mul_one]; exact e4),
      mul_left_cancel₀ hw5.ne' (by rw [mul_one]; exact e5),
      mul_left_cancel₀ hw6.ne' (by rw [mul_one]; exact e6),
      mul_left_cancel₀ hw7.ne' (by rw [mul_one]; exact e7),
      mul_left_cancel₀ hw8.ne' (by rw [mul_one]; exact e8),
      mul_left_cancel₀ hw9.ne' (by rw [mul_one]; exact e9)⟩
  · rintro ⟨e1, e2, e3, e4, e5, e6, e7, e8, e9⟩
    rw [e1, e2, e3, e4, e5, e6, e7, e8, e9]
    ring

/-- C8: every normalized score lies in the closed interval [0,1]; it equals
1 exactly when all nine metric credit factors are 1 (full credit); and on
the spec's all-full-credit scenario input the normalized score is exactly 1
and the label is Strong Buy. -/
theorem C8_normalized_score_range (inp : ScoringInput) :
    (0 ≤ normalized_score_of inp ∧ normalized_score_of inp ≤ 1) ∧
    (normalized_score_of inp = 1 ↔
      (current_ratio_credit (effective_values inp).current_ratio = 1 ∧
        debt_to_equity_credit (effective_values inp).debt_to_equity = 1 ∧
        roe_credit (effective_values inp).roe = 1 ∧
        pe_ratio_credit (effective_values inp).pe_ratio = 1 ∧
        eps_growth_credit (effective_values inp).eps_growth = 1 ∧
        free_cash_flow_credit (effective_values inp).free_cash_flow = 1 ∧
        net_profit_margin_credit (effective_values inp).net_profit_margin = 1 ∧
        dividend_yield_credit (effective_values inp).dividend_yield = 1 ∧
        beta_credit (effective_values inp).beta = 1)) ∧
    normalized_score_of full_input = 1 ∧
    should_invest full_input = "Strong Buy: High confidence in investment potential." := by
  obtain ⟨p1, p2, p3, p4, p5, p6, p7, p8, p9⟩ := effective_weights_pos inp
  have H := weighted_ratio_bounds (effective_weights inp).current_ratio
    (effective_weights inp).debt_to_equity (effective_weights inp).roe
    (effective_weights inp).pe_ratio (effective_weights inp).eps_growth
    (effective_weights inp).free_cash_flow (effective_weights inp).net_profit_margin
    (effective_weights inp).dividend_yield (effective_weights inp).beta
    (current_ratio_credit (effective_values inp).current_ratio)
    (debt_to_equity_credit (effective_values inp).debt_to_equity)
    (roe_credit (effective_values inp).roe)
    (pe_ratio_credit (effective_values inp).pe_ratio)
    (eps_growth_credit (effective_values inp).eps_growth)
    (free_cash_flow_credit (effective_values inp).free_cash_flow)
    (net_profit_margin_credit (effective_values inp).net_profit_margin)
    (dividend_yield_credit (effective_values inp).dividend_yield)
    (beta_credit (effective_values inp).beta)
    p1 p2 p3 p4 p5 p6 p7 p8 p9
    (current_ratio_credit_bounds _) (debt_to_equity_credit_bounds _) (roe_credit_bounds _)
    (pe_ratio_credit_bounds _) (eps_growth_credit_bounds _) (free_cash_flow_credit_bounds _)
    (net_profit_margin_credit_bounds _) (dividend_yield_credit_bounds _) (beta_credit_bounds _)
  have hfull_ns : normalized_score_of full_input = 1 := by
    unfold normalized_score_of
    rw [ew_plain full_input rfl rfl]
    norm_num [score_of, total_weight_of, effective_values, get_metric_value, default_values,
      weights, full_input, current_ratio_credit, debt_to_equity_credit, roe_credit,
      pe_ratio_credit, eps_growth_credit, free_cash_flow_credit, net_profit_margin_credit,
      dividend_yield_credit, beta_credit]
  refine ⟨⟨H.1, H.2.1⟩, H.2.2, hfull_ns, ?_⟩
  rw [si_cases full_input (by rw [ew_plain full_input rfl rfl, tw_weights]; norm_num), hfull_ns]
  norm_num

/-- C8 witness: the range theorem evaluated on the all-absent input. -/
theorem C8_normalized_score_range_witness :
    0 ≤ normalized_score_of all_default_input ∧ normalized_score_of all_default_input ≤ 1 :=
  (C8_normalized_score_range all_default_input).1

/-- C9: the sentinel Insufficient Data is returned exactly when the
accumulated total weight is zero, for any base weight table; the
hypothetical all-zero weight table does yield the sentinel rather than a
division error; and with the source's weight table the total weight is
never zero, so every call returns one of the four labels. -/
theorem C9_insufficient_data (base : MetricTable) (inp : ScoringInput) :
    (should_invest_from base inp = "Insufficient Data" ↔
      total_weight_of (effective_weights_from base inp) = 0) ∧
    should_invest_from zero_table all_default_input = "Insufficient Data" ∧
    total_weight_of (effective_weights inp) ≠ 0 ∧
    (should_invest inp = "Strong Buy: High confidence in investment potential."
      ∨ should_invest inp = "Buy: Good opportunity with solid metrics."
      ∨ should_invest inp = "Hold: Monitor the situation closely."
      ∨ should_invest inp = "Sell: Consider reallocating investments.") := by
  refine ⟨?_, ?_, (total_weight_pos inp).ne', ?_⟩
  · rw [should_invest_from_eq base inp]
    by_cases h : total_weight_of (effective_weights_from base inp) = 0
    · rw [if_pos h]
      simp [h]
    · rw [if_neg h]
      constructor
      · intro hs
        exfalso
        split_ifs at hs <;> exact absurd hs (by decide)
      · intro hs
        exact absurd hs h
  · have hz : effective_weights_from zero_table all_default_input = zero_table := by
      show apply_preference "balanced" (apply_industry none zero_table) = zero_table
      rw [apply_industry_none, apply_preference_balanced]
    rw [should_invest_from_eq zero_table all_default_input, hz,
      if_pos (by norm_num [total_weight_of, zero_table])]
  · rw [si_cases inp (total_weight_pos inp).ne']
    split_ifs <;> simp

/-- C10: any industry tag outside tech, finance, energy (including none)
and any preference tag outside growth, value, dividend leave every weight
unchanged, so the call returns exactly the same label as the call with no
industry and balanced preference. -/
theorem C10_unrecognized_tags (inp : ScoringInput)
    (h1 : inp.industry ≠ some "tech") (h2 : inp.industry ≠ some "finance")
    (h3 : inp.industry ≠ some "energy") (h4 : inp.investor_preference ≠ "growth")
    (h5 : inp.investor_preference ≠ "value") (h6 : inp.investor_preference ≠ "dividend") :
    should_invest inp =
      should_invest { inp with industry := none, investor_preference := "balanced" } := by
  have hw1 : effective_weights inp = weights := by
    unfold effective_weights effective_weights_from
    rw [apply_industry_other inp.industry weights h1 h2 h3,
      apply_preference_other inp.investor_preference weights h4 h5 h6]
  have hw2 : effective_weights
      { inp with industry := none, investor_preference := "balanced" } = weights :=
    ew_plain _ rfl rfl
  have hns : normalized_score_of { inp with industry := none, investor_preference := "balanced" }
      = normalized_score_of inp := by
    unfold normalized_score_of
    rw [hw1, hw2]
    rfl
  rw [should_invest_eq inp,
    should_invest_eq { inp with industry := none, investor_preference := "balanced" },
    hw1, hw2, hns]

/-- C10 witness: a retail industry tag with an aggressive preference tag
gives the same label as no tag and balanced preference. -/
theorem C10_unrecognized_tags_witness :
    should_invest unrecognized_input =
      should_invest { unrecognized_input with industry := none, investor_preference := "balanced" } :=
  C10_unrecognized_tags unrecognized_input (by decide) (by decide) (by decide) (by decide)
    (by decide) (by decide)
